import Mathlib

/-!
Shallow embedding of the traffic-ingestion pipeline of an AI-powered
intrusion-detection backend: the pre-classified logging endpoint
(POST /api/traffic/log), the gateway-classified analysis endpoint
(POST /api/traffic/analyze), and the store tables they write
(TrafficLog, Alert, BlockedIP).  Confidence values are modelled as
rationals, times as integer milliseconds since the epoch, and the
persistence layer as lists plus one availability flag per create call,
so that thrown persistence errors and the unique constraint on
BlockedIP.ipAddress are explicit.  Optional JSON fields are Option;
a JS comparison `confidence >= t` on an absent value is false.
-/

namespace IDS

/-- JS `c >= t` where `c` may be absent (undefined/null compares false). -/
def confGe (c : Option ℚ) (t : ℚ) : Bool :=
  match c with
  | none => false
  | some x => decide (t ≤ x)

/-- The JS conditional `is_attack ? "attack" : "normal"`, the default
traffic state. -/
def defaultState (is_attack : Bool) : String :=
  if is_attack then ("attack") else ("normal")

/-- ASCII lowering of one character, the fragment of JS toLowerCase
relevant to the state strings this pipeline sees. -/
def lowerChar (c : Char) : Char :=
  if 65 ≤ c.toNat ∧ c.toNat ≤ 90 then Char.ofNat (c.toNat + 32) else c

/-- ASCII fragment of JS `s.toLowerCase()`. -/
def lowerStr (s : String) : String :=
  String.mk (s.data.map lowerChar)

/-- The trafficState expression of the /log handler:
`state ? (state.toLowerCase() === "active" ? (is_attack ? "attack" : "normal")
: state.toLowerCase()) : (is_attack ? "attack" : "normal")`.
An empty string is falsy in JS, hence the empty-string case. -/
def trafficStateOf (state : Option String) (is_attack : Bool) : String :=
  match state with
  | none => defaultState is_attack
  | some s =>
    if s = ("") then defaultState is_attack
    else if lowerStr s = ("active") then defaultState is_attack
    else lowerStr s

/-- Membership in the trafficState ENUM of traffic.model.js; inserting any
other value makes the create call throw. -/
def validTrafficState (s : String) : Bool :=
  s = ("normal") || s = ("suspicious") || s = ("attack") || s = ("blocked")

/-- The attackType expression of the /log handler:
`attackType: predicted_class !== "BENIGN" ? predicted_class : null`. -/
def attackTypeOf (predicted_class : Option String) : Option String :=
  if predicted_class = some ("BENIGN") then none else predicted_class

/-- Rendering of a possibly-undefined string in a JS template literal. -/
def optStr (s : Option String) : String :=
  match s with
  | some t => t
  | none => ("undefined")

/-- A persisted traffic_logs row (traffic.model.js).  Presentation-only
columns not read by any handler (ttl, tcp flags, flow statistics, geo
fields) are omitted. -/
structure TrafficSample where
  id : Nat
  srcIp : String
  dstIp : String
  srcPort : Option Int
  dstPort : Option Int
  protocol : String
  packetSize : Option Int
  isAttack : Bool
  attackType : Option String
  confidenceScore : Option ℚ
  anomalyScore : Option ℚ
  trafficState : String
deriving DecidableEq

/-- A persisted alerts row (alert.model.js).  The description string
(which interpolates a toFixed-formatted percentage) is presentation-only
and omitted; autoBlocked has defaultValue false in the model. -/
structure Alert where
  trafficLogId : Nat
  alertType : String
  severity : Nat
  title : String
  attackCategory : Option String
  status : String
  autoBlocked : Bool
deriving DecidableEq

/-- A persisted blocked_ips row (the BlockedIP model): ipAddress carries
`unique: true`; blockedAt defaults to NOW; unblockedAt is null while the
block is active. -/
structure BlockedIP where
  ipAddress : String
  reason : String
  blockedBy : Nat
  blockType : String
  blockedAt : Int
  expiresAt : Option Int
  unblockedAt : Option Int
deriving DecidableEq

/-- The store: the three tables the ingestion pipeline writes. -/
structure Store where
  trafficLogs : List TrafficSample
  alerts : List Alert
  blockedIPs : List BlockedIP
deriving DecidableEq

def Store.empty : Store := ⟨[], [], []⟩

/-- Request body of POST /api/traffic/log; every JSON field may be absent. -/
structure LogRequest where
  src_ip : Option String
  dst_ip : Option String
  src_port : Option Int
  dst_port : Option Int
  protocol : Option String
  packet_size : Option Int
  is_attack : Bool
  predicted_class : Option String
  confidence : Option ℚ
  state : Option String
deriving DecidableEq

/-- Availability of the store for each of the three create calls of one
request; a false flag makes that call throw (store unavailable). -/
structure StoreOracle where
  trafficOk : Bool
  alertOk : Bool
  blockOk : Bool
deriving DecidableEq

def StoreOracle.allOk : StoreOracle := ⟨true, true, true⟩

/-- What the route handler sends back: the success payload field
alertCreated flag, or the error kind of the catch block. -/
inductive ApiResponse where
  | ok (alertCreated : Bool)
  | err (kind : String)
deriving DecidableEq

/-- The TrafficLog.create argument of the /log handler. -/
def mkSample (req : LogRequest) (sip dip proto : String) (id : Nat) :
    TrafficSample :=
  { id := id
    srcIp := sip
    dstIp := dip
    srcPort := req.src_port
    dstPort := req.dst_port
    protocol := proto
    packetSize := req.packet_size
    isAttack := req.is_attack
    attackType := attackTypeOf req.predicted_class
    confidenceScore := req.confidence
    anomalyScore := none
    trafficState := trafficStateOf req.state req.is_attack }

/-- The Alert.create argument of the /log handler: tier CRITICAL at
confidence >= 0.8, severity 5/4/3 at >= 0.9 / >= 0.7 / else; the
autoBlocked column is not supplied, so its model default false applies. -/
def mkAlert (req : LogRequest) (sip : String) (sampleId : Nat) : Alert :=
  { trafficLogId := sampleId
    alertType := if confGe req.confidence (mkRat 8 10) then ("CRITICAL") else ("HIGH")
    severity :=
      if confGe req.confidence (mkRat 9 10) then 5
      else if confGe req.confidence (mkRat 7 10) then 4
      else 3
    title := optStr req.predicted_class ++ (" detected from ") ++ sip
    attackCategory := req.predicted_class
    status := ("open")
    autoBlocked := false }

/-- The BlockedIP.create argument of the /log handler: expiresAt is
Date.now() + 24h, blockedAt defaults to NOW, unblockedAt null. -/
def mkBlock (sip : String) (pc : Option String) (userId : Nat) (now : Int) :
    BlockedIP :=
  { ipAddress := sip
    reason := ("Automated block: ") ++ optStr pc ++ (" attack detected")
    blockedBy := userId
    blockType := ("temporary")
    blockedAt := now
    expiresAt := some (now + 24 * 60 * 60 * 1000)
    unblockedAt := none }

/-- The auto-block step: findOne an active block for the source IP; if
none, BlockedIP.create, which throws on store unavailability or on the
unique ipAddress constraint (any existing row for that IP); a throw is
caught by the handler as a LogError after the alert was persisted. -/
def blockStep (sip : String) (pc : Option String) (userId : Nat) (now : Int)
    (blockOk : Bool) (st : Store) : ApiResponse × Store :=
  match st.blockedIPs.find? (fun b => b.ipAddress == sip && b.unblockedAt.isNone) with
  | some _ => (ApiResponse.ok true, st)
  | none =>
    if blockOk && st.blockedIPs.all (fun b => !(b.ipAddress == sip)) then
      (ApiResponse.ok true,
        { st with blockedIPs := st.blockedIPs ++ [mkBlock sip pc userId now] })
    else
      (ApiResponse.err ("LogError"), st)

/-- The alert step of the /log handler: create an Alert when
`is_attack && confidence >= 0.5`, then auto-block when
`confidence >= 0.7`; a throw in either create is caught as LogError. -/
def alertStep (req : LogRequest) (sip : String) (sampleId : Nat)
    (userId : Nat) (now : Int) (orc : StoreOracle) (st : Store) :
    ApiResponse × Store :=
  if req.is_attack && confGe req.confidence (mkRat 1 2) then
    if orc.alertOk then
      if confGe req.confidence (mkRat 7 10) then
        blockStep sip req.predicted_class userId now orc.blockOk
          { st with alerts := st.alerts ++ [mkAlert req sip sampleId] }
      else
        (ApiResponse.ok true, { st with alerts := st.alerts ++ [mkAlert req sip sampleId] })
    else (ApiResponse.err ("LogError"), st)
  else (ApiResponse.ok false, st)

/-- POST /api/traffic/log: persist the sample (create throws if a
NOT NULL column — srcIp, dstIp, protocol — is absent, if the
trafficState value is outside its ENUM, or if the store is down), then
run the alert/auto-block step; every throw lands in the catch block,
which responds with kind LogError; there is no transaction. -/
def logHandler (req : LogRequest) (userId : Nat) (now : Int)
    (orc : StoreOracle) (st : Store) : ApiResponse × Store :=
  match req.src_ip, req.dst_ip, req.protocol with
  | some sip, some dip, some proto =>
    if orc.trafficOk && validTrafficState (trafficStateOf req.state req.is_attack) then
      let sample := mkSample req sip dip proto st.trafficLogs.length
      alertStep req sip sample.id userId now orc
        { st with trafficLogs := st.trafficLogs ++ [sample] }
    else (ApiResponse.err ("LogError"), st)
  | _, _, _ => (ApiResponse.err ("LogError"), st)

/-- Reply of the classifier gateway on the /analyze path. -/
structure Prediction where
  is_attack : Bool
  attack_type : Option String
  confidence : Option ℚ
  anomaly_score : Option ℚ
deriving DecidableEq

/-- Outcome of the axios call to the ML prediction API: a prediction, or
a failure (unreachable, timeout, bad response), which throws. -/
inductive GatewayResult where
  | ok (p : Prediction)
  | failure
deriving DecidableEq

/-- Request body of POST /api/traffic/analyze (the trafficData fields the
handler spreads into TrafficLog.create). -/
structure AnalyzeRequest where
  srcIp : Option String
  dstIp : Option String
  srcPort : Option Int
  dstPort : Option Int
  protocol : Option String
  packetSize : Option Int
deriving DecidableEq

/-- POST /api/traffic/analyze: call the gateway first (a failure throws
before any persistence), then TrafficLog.create, then Alert.create when
`is_attack && confidence >= 0.85` with severity 5 at >= 0.95 else 4 and
hard-coded tier HIGH; every throw — gateway or persistence — lands in the
single catch block, which responds with kind AnalysisError. -/
def analyzeHandler (req : AnalyzeRequest) (gw : GatewayResult)
    (orc : StoreOracle) (st : Store) : ApiResponse × Store :=
  match gw with
  | GatewayResult.failure => (ApiResponse.err ("AnalysisError"), st)
  | GatewayResult.ok p =>
    match req.srcIp, req.dstIp, req.protocol with
    | some sip, some dip, some proto =>
      if orc.trafficOk then
        let sample : TrafficSample :=
          { id := st.trafficLogs.length
            srcIp := sip
            dstIp := dip
            srcPort := req.srcPort
            dstPort := req.dstPort
            protocol := proto
            packetSize := req.packetSize
            isAttack := p.is_attack
            attackType := p.attack_type
            confidenceScore := p.confidence
            anomalyScore := p.anomaly_score
            trafficState := defaultState p.is_attack }
        let st1 : Store := { st with trafficLogs := st.trafficLogs ++ [sample] }
        if p.is_attack && confGe p.confidence (mkRat 85 100) then
          if orc.alertOk then
            let alert : Alert :=
              { trafficLogId := sample.id
                alertType := ("HIGH")
                severity := if confGe p.confidence (mkRat 95 100) then 5 else 4
                title := optStr p.attack_type ++ (" attack detected from ") ++ sip
                attackCategory := p.attack_type
                status := ("open")
                autoBlocked := false }
            (ApiResponse.ok true, { st1 with alerts := st1.alerts ++ [alert] })
          else (ApiResponse.err ("AnalysisError"), st1)
        else (ApiResponse.ok false, st1)
      else (ApiResponse.err ("AnalysisError"), st)
    | _, _, _ => (ApiResponse.err ("AnalysisError"), st)

/-- Stores reachable from the empty store through the two ingestion
endpoints (the only code paths in the repository that create BlockedIP
rows; the alert-lifecycle and statistics routes never write them). -/
inductive Reachable : Store → Prop where
  | empty : Reachable Store.empty
  | log (req : LogRequest) (userId : Nat) (now : Int) (orc : StoreOracle)
      (st : Store) : Reachable st → Reachable (logHandler req userId now orc st).2
  | analyze (req : AnalyzeRequest) (gw : GatewayResult) (orc : StoreOracle)
      (st : Store) : Reachable st → Reachable (analyzeHandler req gw orc st).2

/-- Number of blocked_ips rows for one IP, active or not. -/
def ipRecordCount (st : Store) (ip : String) : Nat :=
  (st.blockedIPs.filter (fun b => b.ipAddress == ip)).length

/-- The store-level unique constraint: at most one blocked_ips row ever
exists per IP address. -/
def globallyUniqueIPs (st : Store) : Prop :=
  ∀ ip, ipRecordCount st ip ≤ 1

/-- Number of active (unblockedAt null) blocked_ips rows for one IP. -/
def activeBlockCount (st : Store) (ip : String) : Nat :=
  (st.blockedIPs.filter (fun b => b.ipAddress == ip && b.unblockedAt.isNone)).length

/-! Structural lemmas about the pipeline steps. -/

theorem blockStep_trafficLogs (sip : String) (pc : Option String) (u : Nat)
    (now : Int) (bOk : Bool) (st : Store) :
    (blockStep sip pc u now bOk st).2.trafficLogs = st.trafficLogs := by
  unfold blockStep
  split
  · rfl
  · split <;> rfl

theorem blockStep_alerts (sip : String) (pc : Option String) (u : Nat)
    (now : Int) (bOk : Bool) (st : Store) :
    (blockStep sip pc u now bOk st).2.alerts = st.alerts := by
  unfold blockStep
  split
  · rfl
  · split <;> rfl

theorem alertStep_trafficLogs (req : LogRequest) (sip : String) (sid u : Nat)
    (now : Int) (orc : StoreOracle) (st : Store) :
    (alertStep req sip sid u now orc st).2.trafficLogs = st.trafficLogs := by
  unfold alertStep
  split
  · split
    · split
      · rw [blockStep_trafficLogs]
      · rfl
    · rfl
  · rfl

/-- The blocked_ips table after the auto-block step: unchanged, or one
fresh row appended for an IP that had no row at all. -/
theorem blockStep_blocked_shape (sip : String) (pc : Option String) (u : Nat)
    (now : Int) (bOk : Bool) (st : Store) :
    (blockStep sip pc u now bOk st).2.blockedIPs = st.blockedIPs
    ∨ (st.blockedIPs.all (fun b => !(b.ipAddress == sip)) = true
       ∧ (blockStep sip pc u now bOk st).2.blockedIPs
           = st.blockedIPs ++ [mkBlock sip pc u now]) := by
  unfold blockStep
  split
  · exact Or.inl rfl
  · split
    · next h => exact Or.inr ⟨(Bool.and_eq_true _ _ |>.mp h).2, rfl⟩
    · exact Or.inl rfl

theorem alertStep_blocked_shape (req : LogRequest) (sip : String) (sid u : Nat)
    (now : Int) (orc : StoreOracle) (st : Store) :
    (alertStep req sip sid u now orc st).2.blockedIPs = st.blockedIPs
    ∨ (st.blockedIPs.all (fun b => !(b.ipAddress == sip)) = true
       ∧ (alertStep req sip sid u now orc st).2.blockedIPs
           = st.blockedIPs ++ [mkBlock sip req.predicted_class u now]) := by
  unfold alertStep
  split
  · split
    · split
      · exact blockStep_blocked_shape sip req.predicted_class u now orc.blockOk _
      · exact Or.inl rfl
    · exact Or.inl rfl
  · exact Or.inl rfl

/-- The blocked_ips table after a /log request: unchanged, or one fresh
row appended for an IP that had no row at all. -/
theorem logHandler_blocked_shape (req : LogRequest) (u : Nat) (now : Int)
    (orc : StoreOracle) (st : Store) :
    (logHandler req u now orc st).2.blockedIPs = st.blockedIPs
    ∨ ∃ sip, st.blockedIPs.all (fun b => !(b.ipAddress == sip)) = true
       ∧ (logHandler req u now orc st).2.blockedIPs
           = st.blockedIPs ++ [mkBlock sip req.predicted_class u now] := by
  rcases hs : req.src_ip with _ | sip
    <;> rcases hd : req.dst_ip with _ | dip
    <;> rcases hp : req.protocol with _ | proto
    <;> simp only [logHandler, hs, hd, hp]
  all_goals try exact Or.inl trivial
  split
  · rcases alertStep_blocked_shape req sip
        (mkSample req sip dip proto st.trafficLogs.length).id u now orc
        { st with trafficLogs := st.trafficLogs ++ [mkSample req sip dip proto st.trafficLogs.length] } with h | ⟨hall, h⟩
    · exact Or.inl h
    · exact Or.inr ⟨sip, hall, h⟩
  · exact Or.inl rfl

theorem analyzeHandler_blockedIPs (req : AnalyzeRequest) (gw : GatewayResult)
    (orc : StoreOracle) (st : Store) :
    (analyzeHandler req gw orc st).2.blockedIPs = st.blockedIPs := by
  unfold analyzeHandler
  split
  · rfl
  · split
    · split
      · split
        · split <;> rfl
        · rfl
      · rfl
    · rfl

theorem filter_length_mono {α : Type} (l : List α) (p q : α → Bool)
    (h : ∀ a, q a = true → p a = true) :
    (l.filter q).length ≤ (l.filter p).length := by
  induction l with
  | nil => simp
  | cons a l ih =>
    rw [List.filter_cons, List.filter_cons]
    by_cases hq : q a = true
    · rw [if_pos hq, if_pos (h a hq)]
      simpa using ih
    · rw [if_neg hq]
      split
      · exact Nat.le_succ_of_le ih
      · exact ih

/-- Appending one row whose IP has no existing row keeps every per-IP
row count at one or below. -/
theorem count_le_one_append (l : List BlockedIP) (blk : BlockedIP)
    (hall : l.all (fun b => !(b.ipAddress == blk.ipAddress)) = true)
    (h : ∀ ip, (l.filter (fun b => b.ipAddress == ip)).length ≤ 1) :
    ∀ ip, ((l ++ [blk]).filter (fun b => b.ipAddress == ip)).length ≤ 1 := by
  intro ip
  rw [List.filter_append]
  by_cases hip : (blk.ipAddress == ip) = true
  · have hnil : l.filter (fun b => b.ipAddress == ip) = [] := by
      rw [List.filter_eq_nil_iff]
      intro b hb
      have hb2 := (List.all_eq_true.mp hall) b hb
      simp only [Bool.not_eq_true'] at hb2
      have hip2 : blk.ipAddress = ip := by simpa using hip
      simp [← hip2, hb2]
    rw [hnil]
    simp [List.filter, hip]
  · have hsingle : ([blk].filter (fun b => b.ipAddress == ip)) = [] := by
      simp [List.filter, hip]
    rw [hsingle, List.append_nil]
    exact h ip

/-- Every store reachable through the two ingestion endpoints satisfies
the unique constraint on BlockedIP.ipAddress. -/
theorem reachable_globallyUnique (st : Store) (h : Reachable st) :
    globallyUniqueIPs st := by
  induction h with
  | empty =>
    intro ip
    simp [ipRecordCount, Store.empty]
  | log req u now orc st1 _ ih =>
    intro ip
    rcases logHandler_blocked_shape req u now orc st1 with heq | ⟨sip, hall, heq⟩
    · rw [ipRecordCount, heq]
      exact ih ip
    · rw [ipRecordCount, heq]
      exact count_le_one_append st1.blockedIPs (mkBlock sip req.predicted_class u now) hall ih ip
  | analyze req gw orc st1 _ ih =>
    intro ip
    rw [ipRecordCount, analyzeHandler_blockedIPs]
    exact ih ip

/-- Active blocks are a subset of all rows, so the active count is
bounded by the row count. -/
theorem activeBlockCount_le (st : Store) (ip : String) :
    activeBlockCount st ip ≤ ipRecordCount st ip := by
  exact filter_length_mono st.blockedIPs (fun b => b.ipAddress == ip)
    (fun b => b.ipAddress == ip && b.unblockedAt.isNone)
    (fun b hb => (Bool.and_eq_true _ _ |>.mp hb).1)

theorem confGe_some (c t : ℚ) : confGe (some c) t = decide (t ≤ c) := rfl

/-- The alert guard of the /log handler as a proposition. -/
theorem alertCond_iff (req : LogRequest) :
    (req.is_attack && confGe req.confidence (mkRat 1 2)) = true
      ↔ (req.is_attack = true ∧ ∃ c, req.confidence = some c ∧ mkRat 1 2 ≤ c) := by
  cases hc : req.confidence with
  | none => simp [confGe, hc]
  | some c => simp [confGe, hc, and_comm]

/-- With the required columns present, a valid state value and the store
up, the /log handler persists the sample and proceeds to the alert step. -/
theorem logHandler_valid_unfold (req : LogRequest) (u : Nat) (now : Int)
    (orc : StoreOracle) (st : Store) (sip dip proto : String)
    (hs : req.src_ip = some sip) (hd : req.dst_ip = some dip)
    (hp : req.protocol = some proto)
    (hvs : validTrafficState (trafficStateOf req.state req.is_attack) = true)
    (htr : orc.trafficOk = true) :
    logHandler req u now orc st
      = alertStep req sip st.trafficLogs.length u now orc
          (Store.mk (st.trafficLogs ++ [mkSample req sip dip proto st.trafficLogs.length])
            st.alerts st.blockedIPs) := by
  simp only [logHandler, hs, hd, hp, htr, hvs, Bool.and_self, if_true]
  rfl

theorem alertStep_alerts_pos (req : LogRequest) (sip : String) (sid u : Nat)
    (now : Int) (orc : StoreOracle) (st : Store)
    (hcond : (req.is_attack && confGe req.confidence (mkRat 1 2)) = true)
    (halert : orc.alertOk = true) :
    (alertStep req sip sid u now orc st).2.alerts
      = st.alerts ++ [mkAlert req sip sid] := by
  simp only [alertStep, hcond, halert, if_true]
  split
  · rw [blockStep_alerts]
  · rfl

theorem alertStep_neg (req : LogRequest) (sip : String) (sid u : Nat)
    (now : Int) (orc : StoreOracle) (st : Store)
    (hcond : (req.is_attack && confGe req.confidence (mkRat 1 2)) = false) :
    alertStep req sip sid u now orc st = (ApiResponse.ok false, st) := by
  simp [alertStep, hcond]

/-- C1: on the pre-classified logging path (required fields present,
state inside its enum), an Alert is created if and only if the attack
flag is true and a confidence >= 0.5 is present — a false flag or an
absent confidence leaves the alerts table unchanged — and the created
created alert has severity 5 for confidence >= 0.9, 4 for
0.7 <= confidence < 0.9, and 3 for 0.5 <= confidence < 0.7, with each
boundary inclusive of the higher tier. -/
theorem C1_alert_iff_and_severity (req : LogRequest) (u : Nat) (now : Int)
    (st : Store) (sip dip proto : String)
    (hs : req.src_ip = some sip) (hd : req.dst_ip = some dip)
    (hp : req.protocol = some proto)
    (hvs : validTrafficState (trafficStateOf req.state req.is_attack) = true) :
    ((req.is_attack = true ∧ ∃ c, req.confidence = some c ∧ mkRat 1 2 ≤ c) →
      ∃ a, (logHandler req u now StoreOracle.allOk st).2.alerts = st.alerts ++ [a]
        ∧ ∀ c, req.confidence = some c →
            (mkRat 9 10 ≤ c → a.severity = 5)
            ∧ (mkRat 7 10 ≤ c → c < mkRat 9 10 → a.severity = 4)
            ∧ (mkRat 1 2 ≤ c → c < mkRat 7 10 → a.severity = 3))
    ∧ (¬(req.is_attack = true ∧ ∃ c, req.confidence = some c ∧ mkRat 1 2 ≤ c) →
      (logHandler req u now StoreOracle.allOk st).2.alerts = st.alerts) := by
  rw [logHandler_valid_unfold req u now StoreOracle.allOk st sip dip proto hs hd hp hvs rfl]
  constructor
  · intro hP
    have hcond := (alertCond_iff req).mpr hP
    refine ⟨mkAlert req sip st.trafficLogs.length, ?_, ?_⟩
    · rw [alertStep_alerts_pos req sip st.trafficLogs.length u now StoreOracle.allOk _ hcond rfl]
    · intro c hc
      refine ⟨?_, ?_, ?_⟩
      · intro h9
        simp [mkAlert, hc, confGe_some, h9]
      · intro h7 h9
        simp [mkAlert, hc, confGe_some, h7, not_le.mpr h9]
      · intro h5 h7
        have h79 : mkRat 7 10 ≤ mkRat 9 10 := by decide
        simp [mkAlert, hc, confGe_some, not_le.mpr h7,
          not_le.mpr (lt_of_lt_of_le h7 h79)]
  · intro hP
    have hcond : (req.is_attack && confGe req.confidence (mkRat 1 2)) = false := by
      rcases Bool.eq_false_or_eq_true (req.is_attack && confGe req.confidence (mkRat 1 2)) with h | h
      · exact absurd ((alertCond_iff req).mp h) hP
      · exact h
    rw [alertStep_neg req sip st.trafficLogs.length u now StoreOracle.allOk _ hcond]

/-- The 0.59-confidence DDoS scenario of the spec. -/
def reqC1 : LogRequest :=
  { src_ip := some ("192.168.1.100")
    dst_ip := some ("10.0.0.5")
    src_port := some 4444
    dst_port := some 80
    protocol := some ("TCP")
    packet_size := some 512
    is_attack := true
    predicted_class := some ("DDoS")
    confidence := some (mkRat 59 100)
    state := none }

/-- Witness for C1 at the 0.59-confidence scenario of the spec. -/
theorem C1_witness :
    ∃ a, (logHandler reqC1 1 0 StoreOracle.allOk Store.empty).2.alerts
        = Store.empty.alerts ++ [a]
      ∧ ∀ c, reqC1.confidence = some c →
          (mkRat 9 10 ≤ c → a.severity = 5)
          ∧ (mkRat 7 10 ≤ c → c < mkRat 9 10 → a.severity = 4)
          ∧ (mkRat 1 2 ≤ c → c < mkRat 7 10 → a.severity = 3) :=
  (C1_alert_iff_and_severity reqC1 1 0 Store.empty ("192.168.1.100") ("10.0.0.5") ("TCP")
    rfl rfl rfl (by decide)).1
    ⟨rfl, mkRat 59 100, rfl, by decide⟩

/-- Same scenario with confidence 0.8999, below the CRITICAL
boundary of 0.90. -/
def reqC2 : LogRequest :=
  { reqC1 with confidence := some (mkRat 8999 10000) }

/-- C2 counterexample: ingesting an attack with confidence 0.8999 — which
the claim requires to be labelled HIGH — produces an alert whose tier
label is CRITICAL, because the tier ternary of the code tests >= 0.8, not
>= 0.90. -/
theorem C2_counterexample :
    ((logHandler reqC2 1 0 StoreOracle.allOk Store.empty).2.alerts.map
        (fun a => a.alertType)) = [("CRITICAL")]
    ∧ mkRat 8999 10000 < mkRat 9 10 := by decide

/-- C2 amended: for every alert the logging path creates, the tier label
is CRITICAL iff confidence >= 0.80 and HIGH iff confidence < 0.80; both
0.90 and 0.8999 therefore yield CRITICAL. -/
theorem C2_amended_tier (req : LogRequest) (u : Nat) (now : Int)
    (st : Store) (sip dip proto : String) (c : ℚ)
    (hs : req.src_ip = some sip) (hd : req.dst_ip = some dip)
    (hp : req.protocol = some proto)
    (hvs : validTrafficState (trafficStateOf req.state req.is_attack) = true)
    (hatt : req.is_attack = true)
    (hc : req.confidence = some c) (h5 : mkRat 1 2 ≤ c) :
    ∃ a, (logHandler req u now StoreOracle.allOk st).2.alerts = st.alerts ++ [a]
      ∧ (a.alertType = ("CRITICAL") ↔ mkRat 8 10 ≤ c)
      ∧ (a.alertType = ("HIGH") ↔ c < mkRat 8 10) := by
  have hcond := (alertCond_iff req).mpr ⟨hatt, c, hc, h5⟩
  rw [logHandler_valid_unfold req u now StoreOracle.allOk st sip dip proto hs hd hp hvs rfl]
  refine ⟨mkAlert req sip st.trafficLogs.length,
    alertStep_alerts_pos req sip st.trafficLogs.length u now StoreOracle.allOk _ hcond rfl,
    ?_, ?_⟩
  · by_cases h8 : mkRat 8 10 ≤ c
    · simp [mkAlert, hc, confGe_some, h8]
    · simp [mkAlert, hc, confGe_some, h8]
  · by_cases h8 : mkRat 8 10 ≤ c
    · simp [mkAlert, hc, confGe_some, h8, not_lt.mpr h8]
    · simp [mkAlert, hc, confGe_some, h8, not_le.mp h8]

/-- Witness for the amended C2 at confidence 0.8999 (tier CRITICAL). -/
theorem C2_amended_witness :
    ∃ a, (logHandler reqC2 1 0 StoreOracle.allOk Store.empty).2.alerts
        = Store.empty.alerts ++ [a]
      ∧ (a.alertType = ("CRITICAL") ↔ mkRat 8 10 ≤ mkRat 8999 10000)
      ∧ (a.alertType = ("HIGH") ↔ mkRat 8999 10000 < mkRat 8 10) :=
  C2_amended_tier reqC2 1 0 Store.empty ("192.168.1.100") ("10.0.0.5") ("TCP")
    (mkRat 8999 10000) rfl rfl rfl (by decide) rfl rfl (by decide)

theorem alertStep_block_pos (req : LogRequest) (sip : String) (sid u : Nat)
    (now : Int) (orc : StoreOracle) (tl : List TrafficSample)
    (al : List Alert) (bl : List BlockedIP)
    (hcond : (req.is_attack && confGe req.confidence (mkRat 1 2)) = true)
    (halert : orc.alertOk = true)
    (h7 : confGe req.confidence (mkRat 7 10) = true) :
    alertStep req sip sid u now orc (Store.mk tl al bl)
      = blockStep sip req.predicted_class u now orc.blockOk
          (Store.mk tl (al ++ [mkAlert req sip sid]) bl) := by
  simp [alertStep, hcond, halert, h7]

theorem alertStep_block_neg7 (req : LogRequest) (sip : String) (sid u : Nat)
    (now : Int) (orc : StoreOracle) (tl : List TrafficSample)
    (al : List Alert) (bl : List BlockedIP)
    (hcond : (req.is_attack && confGe req.confidence (mkRat 1 2)) = true)
    (halert : orc.alertOk = true)
    (h7 : confGe req.confidence (mkRat 7 10) = false) :
    alertStep req sip sid u now orc (Store.mk tl al bl)
      = (ApiResponse.ok true, Store.mk tl (al ++ [mkAlert req sip sid]) bl) := by
  simp [alertStep, hcond, halert, h7]

theorem blockStep_found (sip : String) (pc : Option String) (u : Nat)
    (now : Int) (bOk : Bool) (tl : List TrafficSample)
    (al : List Alert) (bl : List BlockedIP) (b : BlockedIP)
    (hf : bl.find? (fun b => b.ipAddress == sip && b.unblockedAt.isNone) = some b) :
    blockStep sip pc u now bOk (Store.mk tl al bl)
      = (ApiResponse.ok true, Store.mk tl al bl) := by
  simp [blockStep, hf]

theorem blockStep_none_create (sip : String) (pc : Option String) (u : Nat)
    (now : Int) (tl : List TrafficSample) (al : List Alert) (bl : List BlockedIP)
    (hf : bl.find? (fun b => b.ipAddress == sip && b.unblockedAt.isNone) = none)
    (hall : bl.all (fun b => !(b.ipAddress == sip)) = true) :
    blockStep sip pc u now true (Store.mk tl al bl)
      = (ApiResponse.ok true, Store.mk tl al (bl ++ [mkBlock sip pc u now])) := by
  simp [blockStep, hf, hall]

theorem blockStep_none_conflict (sip : String) (pc : Option String) (u : Nat)
    (now : Int) (bOk : Bool) (tl : List TrafficSample)
    (al : List Alert) (bl : List BlockedIP)
    (hf : bl.find? (fun b => b.ipAddress == sip && b.unblockedAt.isNone) = none)
    (hfail : (bOk && bl.all (fun b => !(b.ipAddress == sip))) = false) :
    blockStep sip pc u now bOk (Store.mk tl al bl)
      = (ApiResponse.err ("LogError"), Store.mk tl al bl) := by
  simp only [blockStep, hf]
  rw [if_neg]
  simp [hfail]

/-- C3: with the policy firing auto-block (attack, confidence >= 0.7) the
logging path creates a BlockedIP row for the source IP of the sample only
when no active (unblockedAt null) block for that IP exists, the created
expiresAt of the created row equals its creation time plus 24 hours, and for
confidence below 0.7 the blocked_ips table is untouched. -/
theorem C3_autoblock (req : LogRequest) (u : Nat) (now : Int)
    (st : Store) (sip dip proto : String) (c : ℚ)
    (hs : req.src_ip = some sip) (hd : req.dst_ip = some dip)
    (hp : req.protocol = some proto)
    (hvs : validTrafficState (trafficStateOf req.state req.is_attack) = true)
    (hatt : req.is_attack = true)
    (hc : req.confidence = some c) (h5 : mkRat 1 2 ≤ c) :
    (c < mkRat 7 10 →
      (logHandler req u now StoreOracle.allOk st).2.blockedIPs = st.blockedIPs)
    ∧ ((logHandler req u now StoreOracle.allOk st).2.blockedIPs ≠ st.blockedIPs →
      mkRat 7 10 ≤ c
      ∧ (∀ b ∈ st.blockedIPs, ¬(b.ipAddress = sip ∧ b.unblockedAt = none))
      ∧ (logHandler req u now StoreOracle.allOk st).2.blockedIPs
          = st.blockedIPs ++ [mkBlock sip req.predicted_class u now]
      ∧ (mkBlock sip req.predicted_class u now).expiresAt
          = some ((mkBlock sip req.predicted_class u now).blockedAt
              + 24 * 60 * 60 * 1000)) := by
  have hcond := (alertCond_iff req).mpr ⟨hatt, c, hc, h5⟩
  rw [logHandler_valid_unfold req u now StoreOracle.allOk st sip dip proto hs hd hp hvs rfl]
  constructor
  · intro h7
    have h7f : confGe req.confidence (mkRat 7 10) = false := by
      rw [hc, confGe_some]
      exact decide_eq_false (not_le.mpr h7)
    rw [alertStep_block_neg7 req sip st.trafficLogs.length u now StoreOracle.allOk
      _ _ _ hcond rfl h7f]
  · intro hne
    by_cases h7 : mkRat 7 10 ≤ c
    · have h7t : confGe req.confidence (mkRat 7 10) = true := by
        rw [hc, confGe_some]
        exact decide_eq_true h7
      rw [alertStep_block_pos req sip st.trafficLogs.length u now StoreOracle.allOk
        _ _ _ hcond rfl h7t] at hne ⊢
      rw [show StoreOracle.allOk.blockOk = true from rfl] at hne ⊢
      cases hf : st.blockedIPs.find? (fun b => b.ipAddress == sip && b.unblockedAt.isNone) with
      | some b =>
        rw [blockStep_found sip req.predicted_class u now _ _ _ _ b hf] at hne
        exact absurd rfl hne
      | none =>
        have hactive : ∀ b ∈ st.blockedIPs, ¬(b.ipAddress = sip ∧ b.unblockedAt = none) := by
          intro b hb hcontra
          have := List.find?_eq_none.mp hf b hb
          simp [hcontra.1, hcontra.2] at this
        by_cases hall : st.blockedIPs.all (fun b => !(b.ipAddress == sip)) = true
        · rw [blockStep_none_create sip req.predicted_class u now _ _ _ hf hall]
          exact ⟨h7, hactive, rfl, rfl⟩
        · have hallf : st.blockedIPs.all (fun b => !(b.ipAddress == sip)) = false :=
            Bool.eq_false_iff.mpr hall
          have hfail : (true
              && st.blockedIPs.all (fun b => !(b.ipAddress == sip))) = false := by
            rw [hallf, Bool.and_false]
          rw [blockStep_none_conflict sip req.predicted_class u now _ _ _ _ hf hfail] at hne
          exact absurd rfl hne
    · have h7f : confGe req.confidence (mkRat 7 10) = false := by
        rw [hc, confGe_some]
        exact decide_eq_false (fun hx => h7 (of_decide_eq_true (decide_eq_true hx)))
      rw [alertStep_block_neg7 req sip st.trafficLogs.length u now StoreOracle.allOk
        _ _ _ hcond rfl h7f] at hne
      exact absurd rfl hne

/-- The 0.95-confidence DDoS scenario of the spec. -/
def reqHigh : LogRequest :=
  { reqC1 with confidence := some (mkRat 95 100) }

/-- Witness for C3: the 0.95-confidence scenario on an empty store. -/
theorem C3_witness :
    (mkRat 95 100 < mkRat 7 10 →
      (logHandler reqHigh 1 0 StoreOracle.allOk Store.empty).2.blockedIPs
        = Store.empty.blockedIPs)
    ∧ ((logHandler reqHigh 1 0 StoreOracle.allOk Store.empty).2.blockedIPs
        ≠ Store.empty.blockedIPs →
      mkRat 7 10 ≤ mkRat 95 100
      ∧ (∀ b ∈ Store.empty.blockedIPs,
          ¬(b.ipAddress = ("192.168.1.100") ∧ b.unblockedAt = none))
      ∧ (logHandler reqHigh 1 0 StoreOracle.allOk Store.empty).2.blockedIPs
          = Store.empty.blockedIPs
            ++ [mkBlock ("192.168.1.100") reqHigh.predicted_class 1 0]
      ∧ (mkBlock ("192.168.1.100") reqHigh.predicted_class 1 0).expiresAt
          = some ((mkBlock ("192.168.1.100") reqHigh.predicted_class 1 0).blockedAt
              + 24 * 60 * 60 * 1000)) :=
  C3_autoblock reqHigh 1 0 Store.empty ("192.168.1.100") ("10.0.0.5") ("TCP")
    (mkRat 95 100) rfl rfl rfl (by decide) rfl rfl (by decide)

/-- An earlier block row for 192.168.1.100 that was since unblocked:
invisible to the active-only pre-check, yet still holding the unique
ipAddress slot. -/
def blkOld : BlockedIP :=
  { ipAddress := ("192.168.1.100")
    reason := ("manual block")
    blockedBy := 1
    blockType := ("temporary")
    blockedAt := 100
    expiresAt := some 200
    unblockedAt := some 300 }

def stOldBlock : Store := ⟨[], [], [blkOld]⟩

/-- A currently active block row for 192.168.1.100. -/
def blkActive : BlockedIP :=
  { ipAddress := ("192.168.1.100")
    reason := ("manual block")
    blockedBy := 1
    blockType := ("temporary")
    blockedAt := 100
    expiresAt := some 200
    unblockedAt := none }

def stActiveBlock : Store := ⟨[], [], [blkActive]⟩

/-- C4 counterexample: with an earlier, since-unblocked row for the same
IP in blocked_ips, a 0.95-confidence attack passes the active-only
pre-check, BlockedIP.create hits the unique ipAddress constraint, and
the catch block of the handler turns the conflict into a LogError ingestion
failure — not the "already blocked, no-op" the claim requires. -/
theorem C4_counterexample :
    (logHandler reqHigh 1 0 StoreOracle.allOk stOldBlock).1
      = ApiResponse.err ("LogError")
    ∧ (logHandler reqHigh 1 0 StoreOracle.allOk stOldBlock).2.blockedIPs
        = stOldBlock.blockedIPs := by
  decide

/-- A duplicate-create conflict: when the source IP owns a blocked_ips
row that is not active, the pre-check passes, BlockedIP.create hits the
unique constraint, and the handler reports LogError with blocked_ips
unchanged. -/
theorem logHandler_dup_conflict (req : LogRequest) (u : Nat) (now : Int)
    (st : Store) (sip dip proto : String) (c : ℚ)
    (hs : req.src_ip = some sip) (hd : req.dst_ip = some dip)
    (hp : req.protocol = some proto)
    (hvs : validTrafficState (trafficStateOf req.state req.is_attack) = true)
    (hatt : req.is_attack = true) (hc : req.confidence = some c)
    (h7 : mkRat 7 10 ≤ c)
    (hnoact : ∀ b ∈ st.blockedIPs, ¬(b.ipAddress = sip ∧ b.unblockedAt = none))
    (hrow : ∃ b ∈ st.blockedIPs, b.ipAddress = sip) :
    (logHandler req u now StoreOracle.allOk st).1 = ApiResponse.err ("LogError")
    ∧ (logHandler req u now StoreOracle.allOk st).2.blockedIPs = st.blockedIPs := by
  have h5 : mkRat 1 2 ≤ c := le_trans (by decide) h7
  have hcond := (alertCond_iff req).mpr ⟨hatt, c, hc, h5⟩
  have h7t : confGe req.confidence (mkRat 7 10) = true := by
    rw [hc, confGe_some]
    exact decide_eq_true h7
  rw [logHandler_valid_unfold req u now StoreOracle.allOk st sip dip proto hs hd hp hvs rfl]
  rw [alertStep_block_pos req sip st.trafficLogs.length u now StoreOracle.allOk
    _ _ _ hcond rfl h7t]
  rw [show StoreOracle.allOk.blockOk = true from rfl]
  have hf : st.blockedIPs.find?
      (fun b => b.ipAddress == sip && b.unblockedAt.isNone) = none := by
    cases hf0 : st.blockedIPs.find?
        (fun b => b.ipAddress == sip && b.unblockedAt.isNone) with
    | none => rfl
    | some b =>
      exfalso
      have hmem := List.mem_of_find?_eq_some hf0
      have hpred := List.find?_some hf0
      rcases Bool.and_eq_true _ _ |>.mp hpred with ⟨h1, h2⟩
      exact hnoact b hmem ⟨by simpa using h1, by simpa using h2⟩
  have hallf : st.blockedIPs.all (fun b => !(b.ipAddress == sip)) = false := by
    rcases Bool.eq_false_or_eq_true
        (st.blockedIPs.all (fun b => !(b.ipAddress == sip))) with h | h
    · obtain ⟨b, hb, h1⟩ := hrow
      have := List.all_eq_true.mp h b hb
      simp [h1] at this
    · exact h
  have hfail : (true && st.blockedIPs.all (fun b => !(b.ipAddress == sip))) = false := by
    rw [hallf, Bool.and_false]
  rw [blockStep_none_conflict sip req.predicted_class u now _ _ _ _ hf hfail]
  exact ⟨rfl, rfl⟩

/-- C4 amended: every store reachable through the ingestion endpoints
has at most one active block per IP, and a repeated auto-block attempt
while an active block exists is skipped by the pre-check and succeeds as
a no-op; but a duplicate-create conflict — a row for the IP that the
active-only pre-check does not see — surfaces as a LogError ingestion
failure with the blocked_ips table unchanged, not as a no-op. -/
theorem C4_amended :
    (∀ st, Reachable st → ∀ ip, activeBlockCount st ip ≤ 1)
    ∧ (∀ (req : LogRequest) (u : Nat) (now : Int) (st : Store)
        (sip dip proto : String) (c : ℚ),
        req.src_ip = some sip → req.dst_ip = some dip →
        req.protocol = some proto →
        validTrafficState (trafficStateOf req.state req.is_attack) = true →
        req.is_attack = true → req.confidence = some c → mkRat 7 10 ≤ c →
        (∃ b ∈ st.blockedIPs, b.ipAddress = sip ∧ b.unblockedAt = none) →
        (logHandler req u now StoreOracle.allOk st).1 = ApiResponse.ok true
        ∧ (logHandler req u now StoreOracle.allOk st).2.blockedIPs = st.blockedIPs)
    ∧ (∀ (req : LogRequest) (u : Nat) (now : Int) (st : Store)
        (sip dip proto : String) (c : ℚ),
        req.src_ip = some sip → req.dst_ip = some dip →
        req.protocol = some proto →
        validTrafficState (trafficStateOf req.state req.is_attack) = true →
        req.is_attack = true → req.confidence = some c → mkRat 7 10 ≤ c →
        (∀ b ∈ st.blockedIPs, ¬(b.ipAddress = sip ∧ b.unblockedAt = none)) →
        (∃ b ∈ st.blockedIPs, b.ipAddress = sip) →
        (logHandler req u now StoreOracle.allOk st).1 = ApiResponse.err ("LogError")
        ∧ (logHandler req u now StoreOracle.allOk st).2.blockedIPs = st.blockedIPs) := by
  refine ⟨?_, ?_, ?_⟩
  · intro st h ip
    exact le_trans (activeBlockCount_le st ip) (reachable_globallyUnique st h ip)
  · intro req u now st sip dip proto c hs hd hp hvs hatt hc h7 hex
    have h5 : mkRat 1 2 ≤ c := le_trans (by decide) h7
    have hcond := (alertCond_iff req).mpr ⟨hatt, c, hc, h5⟩
    have h7t : confGe req.confidence (mkRat 7 10) = true := by
      rw [hc, confGe_some]
      exact decide_eq_true h7
    rw [logHandler_valid_unfold req u now StoreOracle.allOk st sip dip proto hs hd hp hvs rfl]
    rw [alertStep_block_pos req sip st.trafficLogs.length u now StoreOracle.allOk
      _ _ _ hcond rfl h7t]
    cases hf : st.blockedIPs.find? (fun b => b.ipAddress == sip && b.unblockedAt.isNone) with
    | some b =>
      rw [blockStep_found sip req.predicted_class u now _ _ _ _ b hf]
      exact ⟨rfl, rfl⟩
    | none =>
      exfalso
      obtain ⟨b, hb, h1, h2⟩ := hex
      have := List.find?_eq_none.mp hf b hb
      simp [h1, h2] at this
  · intro req u now st sip dip proto c hs hd hp hvs hatt hc h7 hnoact hrow
    exact logHandler_dup_conflict req u now st sip dip proto c
      hs hd hp hvs hatt hc h7 hnoact hrow

/-- Witness for the amended C4: the invariant at the empty store, the
no-op on a store with an active block, and the LogError conflict on a
store with an unblocked row. -/
theorem C4_amended_witness :
    activeBlockCount Store.empty ("192.168.1.100") ≤ 1
    ∧ ((logHandler reqHigh 1 0 StoreOracle.allOk stActiveBlock).1 = ApiResponse.ok true
      ∧ (logHandler reqHigh 1 0 StoreOracle.allOk stActiveBlock).2.blockedIPs
          = stActiveBlock.blockedIPs)
    ∧ ((logHandler reqHigh 1 0 StoreOracle.allOk stOldBlock).1
        = ApiResponse.err ("LogError")
      ∧ (logHandler reqHigh 1 0 StoreOracle.allOk stOldBlock).2.blockedIPs
          = stOldBlock.blockedIPs) :=
  ⟨C4_amended.1 Store.empty Reachable.empty ("192.168.1.100"),
    C4_amended.2.1 reqHigh 1 0 stActiveBlock ("192.168.1.100") ("10.0.0.5") ("TCP")
      (mkRat 95 100) rfl rfl rfl (by decide) rfl rfl (by decide) (by decide),
    C4_amended.2.2 reqHigh 1 0 stOldBlock ("192.168.1.100") ("10.0.0.5") ("TCP")
      (mkRat 95 100) rfl rfl rfl (by decide) rfl rfl (by decide) (by decide) (by decide)⟩

/-- C5 (code-bug evidence): a 0.95-confidence attack on an empty store
auto-blocks the source IP, yet the autoBlocked flag of the created alert is
false — the handler never supplies the column, so the model default
false is stored no matter whether ingestion blocked the IP. -/
theorem C5_autoBlocked_stays_false :
    (logHandler reqHigh 1 0 StoreOracle.allOk Store.empty).2.blockedIPs.length = 1
    ∧ ((logHandler reqHigh 1 0 StoreOracle.allOk Store.empty).2.alerts.map
        (fun a => a.autoBlocked)) = [false] := by
  decide

/-- The 0.59-confidence DDoS scenario with a supplied state string. -/
def reqC6 : LogRequest :=
  { reqC1 with state := some ("SUSPICIOUS") }

/-- C6 counterexample: an attack sample carrying state "SUSPICIOUS" is
persisted with trafficState "suspicious" — the lowercased passthrough of
the supplied state — although the claim derives "attack" from the true
attack flag. -/
theorem C6_counterexample :
    reqC6.is_attack = true
    ∧ ((logHandler reqC6 1 0 StoreOracle.allOk Store.empty).2.trafficLogs.map
        (fun s => s.trafficState)) = [("suspicious")]
    ∧ ¬("suspicious" = ("attack")) := by
  decide

/-- C6 amended: the attackType of the persisted sample is the predicted label
unless that label is the BENIGN sentinel, and its trafficState is
derived from the attack flag (attack/normal) only when the supplied
state field is absent, empty, or lowercases to "active"; any other
supplied state is stored as its lowercased passthrough. -/
theorem C6_amended (req : LogRequest) (u : Nat) (now : Int) (st : Store)
    (sip dip proto : String)
    (hs : req.src_ip = some sip) (hd : req.dst_ip = some dip)
    (hp : req.protocol = some proto)
    (hvs : validTrafficState (trafficStateOf req.state req.is_attack) = true) :
    ∃ s, (logHandler req u now StoreOracle.allOk st).2.trafficLogs
        = st.trafficLogs ++ [s]
      ∧ s.attackType
          = (if req.predicted_class = some ("BENIGN") then none else req.predicted_class)
      ∧ ((req.state = none ∨ req.state = some ("")
            ∨ (∃ t, req.state = some t ∧ lowerStr t = ("active"))) →
          s.trafficState = (if req.is_attack then ("attack") else ("normal")))
      ∧ (∀ t, req.state = some t → ¬t = ("") → ¬lowerStr t = ("active") →
          s.trafficState = lowerStr t) := by
  rw [logHandler_valid_unfold req u now StoreOracle.allOk st sip dip proto hs hd hp hvs rfl]
  refine ⟨mkSample req sip dip proto st.trafficLogs.length, ?_, rfl, ?_, ?_⟩
  · rw [alertStep_trafficLogs]
  · intro h
    rcases h with h | h | ⟨t, ht, hlow⟩
    · simp [mkSample, trafficStateOf, h, defaultState]
    · simp [mkSample, trafficStateOf, h, defaultState]
    · by_cases ht0 : t = ("")
      · simp [mkSample, trafficStateOf, ht, ht0, defaultState]
      · simp [mkSample, trafficStateOf, ht, ht0, hlow, defaultState]
  · intro t ht hne hact
    simp [mkSample, trafficStateOf, ht, hne, hact]

/-- Witness for the amended C6 at the 0.59-confidence scenario. -/
theorem C6_amended_witness :
    ∃ s, (logHandler reqC1 1 0 StoreOracle.allOk Store.empty).2.trafficLogs
        = Store.empty.trafficLogs ++ [s]
      ∧ s.attackType
          = (if reqC1.predicted_class = some ("BENIGN") then none
             else reqC1.predicted_class)
      ∧ ((reqC1.state = none ∨ reqC1.state = some ("")
            ∨ (∃ t, reqC1.state = some t ∧ lowerStr t = ("active"))) →
          s.trafficState = (if reqC1.is_attack then ("attack") else ("normal")))
      ∧ (∀ t, reqC1.state = some t → ¬t = ("") → ¬lowerStr t = ("active") →
          s.trafficState = lowerStr t) :=
  C6_amended reqC1 1 0 Store.empty ("192.168.1.100") ("10.0.0.5") ("TCP")
    rfl rfl rfl (by decide)

theorem blockStep_err_kind (sip : String) (pc : Option String) (u : Nat)
    (now : Int) (bOk : Bool) (st : Store) (e : String)
    (h : (blockStep sip pc u now bOk st).1 = ApiResponse.err e) : e = ("LogError") := by
  unfold blockStep at h
  split at h
  · simp at h
  · split at h
    · simp at h
    · simp at h
      exact h.symm

theorem alertStep_err_kind (req : LogRequest) (sip : String) (sid u : Nat)
    (now : Int) (orc : StoreOracle) (st : Store) (e : String)
    (h : (alertStep req sip sid u now orc st).1 = ApiResponse.err e) : e = ("LogError") := by
  unfold alertStep at h
  split at h
  · split at h
    · split at h
      · exact blockStep_err_kind _ _ _ _ _ _ _ h
      · simp at h
    · simp at h
      exact h.symm
  · simp at h

/-- Every error the logging path reports has kind LogError: the single
catch block of the /log handler. -/
theorem logHandler_err_kind (req : LogRequest) (u : Nat) (now : Int)
    (orc : StoreOracle) (st : Store) (e : String)
    (h : (logHandler req u now orc st).1 = ApiResponse.err e) : e = ("LogError") := by
  rcases hs : req.src_ip with _ | sip
    <;> rcases hd : req.dst_ip with _ | dip
    <;> rcases hp : req.protocol with _ | proto
    <;> simp only [logHandler, hs, hd, hp] at h
  all_goals try (simp at h; exact h.symm)
  split at h
  · exact alertStep_err_kind _ _ _ _ _ _ _ _ h
  · simp at h
    exact h.symm

/-- Every error the analysis path reports has kind AnalysisError: the
single catch block of the /analyze handler. -/
theorem analyzeHandler_err_kind (req : AnalyzeRequest) (gw : GatewayResult)
    (orc : StoreOracle) (st : Store) (e : String)
    (h : (analyzeHandler req gw orc st).1 = ApiResponse.err e) : e = ("AnalysisError") := by
  cases gw with
  | failure =>
    simp only [analyzeHandler] at h
    simp at h
    exact h.symm
  | ok p =>
    rcases hs : req.srcIp with _ | sip
      <;> rcases hd : req.dstIp with _ | dip
      <;> rcases hp : req.protocol with _ | proto
      <;> simp only [analyzeHandler, hs, hd, hp] at h
    all_goals try (simp at h; exact h.symm)
    split at h
    · split at h
      · split at h
        · simp at h
        · simp at h
          exact h.symm
      · simp at h
    · simp at h
      exact h.symm

/-- Request body for the analysis path used in the C7 scenarios. -/
def reqAn : AnalyzeRequest :=
  { srcIp := some ("192.168.1.100")
    dstIp := some ("10.0.0.5")
    srcPort := some 4444
    dstPort := some 80
    protocol := some ("TCP")
    packetSize := some 512 }

/-- A successful gateway classification used in the C7 scenarios. -/
def predAttack : Prediction :=
  { is_attack := true
    attack_type := some ("DDoS")
    confidence := some (mkRat 9 10)
    anomaly_score := some (mkRat 1 2) }

/-- C7 counterexample: on the analysis path a persistence failure after
a successful gateway call is reported with the very same error kind —
AnalysisError — as a gateway failure, so the gateway-failure error is
not of a kind distinct from the kind reported for persistence failures
on that path. -/
theorem C7_counterexample :
    (analyzeHandler reqAn (GatewayResult.ok predAttack)
        (StoreOracle.mk false true true) Store.empty).1
      = ApiResponse.err ("AnalysisError")
    ∧ (analyzeHandler reqAn GatewayResult.failure StoreOracle.allOk Store.empty).1
      = ApiResponse.err ("AnalysisError") := by
  decide

/-- C7 amended: a gateway failure aborts the analysis path before any
persistence — the store is unchanged and the caller sees kind
AnalysisError — and that kind is distinct from the LogError kind that
the logging path reports for its persistence failures; but persistence
failures within the analysis path itself are reported with the same
AnalysisError kind as gateway failures. -/
theorem C7_amended (req : AnalyzeRequest) (orc : StoreOracle) (st : Store) :
    analyzeHandler req GatewayResult.failure orc st
      = (ApiResponse.err ("AnalysisError"), st)
    ∧ (∀ (req2 : LogRequest) (u : Nat) (now : Int) (orc2 : StoreOracle)
        (st2 : Store) (e : String),
        (logHandler req2 u now orc2 st2).1 = ApiResponse.err e → e = ("LogError"))
    ∧ (∀ (p : Prediction) (orcP : StoreOracle) (e : String),
        (analyzeHandler req (GatewayResult.ok p) orcP st).1 = ApiResponse.err e →
        e = ("AnalysisError"))
    ∧ ¬("AnalysisError" = ("LogError")) := by
  refine ⟨rfl, ?_, ?_, by decide⟩
  · intro req2 u now orc2 st2 e h
    exact logHandler_err_kind req2 u now orc2 st2 e h
  · intro p orcP e h
    exact analyzeHandler_err_kind req (GatewayResult.ok p) orcP st e h

/-- A logging request missing its required source IP. -/
def reqMissing : LogRequest :=
  { reqC1 with src_ip := none }

/-- Witness for the amended C7: the gateway-failure equation on an empty
store, the LogError kind on a failing logging request, the
AnalysisError kind on a store-down analysis request, and distinctness. -/
theorem C7_witness :
    analyzeHandler reqAn GatewayResult.failure StoreOracle.allOk Store.empty
      = (ApiResponse.err ("AnalysisError"), Store.empty)
    ∧ ("LogError" = ("LogError"))
    ∧ ("AnalysisError" = ("AnalysisError"))
    ∧ ¬("AnalysisError" = ("LogError")) :=
  ⟨(C7_amended reqAn StoreOracle.allOk Store.empty).1,
    (C7_amended reqAn StoreOracle.allOk Store.empty).2.1 reqMissing 1 0
      StoreOracle.allOk Store.empty ("LogError") (by decide),
    (C7_amended reqAn StoreOracle.allOk Store.empty).2.2.1 predAttack
      (StoreOracle.mk false true true) ("AnalysisError") (by decide),
    (C7_amended reqAn StoreOracle.allOk Store.empty).2.2.2⟩

/-- The 0.59-confidence scenario with a confidence of 1.5, outside the
[0,1] range. -/
def reqOutOfRange : LogRequest :=
  { reqC1 with confidence := some (mkRat 3 2) }

/-- C8 counterexample: a logging request whose confidence is 1.5 — a
value the claim requires to be rejected with a ValidationError before
any persistence — is answered with success and its sample is persisted:
the handler performs no confidence-range validation at all. -/
theorem C8_counterexample :
    (logHandler reqOutOfRange 1 0 StoreOracle.allOk Store.empty).1
      = ApiResponse.ok true
    ∧ (logHandler reqOutOfRange 1 0 StoreOracle.allOk Store.empty).2.trafficLogs.length = 1
    ∧ mkRat 1 1 < mkRat 3 2 := by
  decide

/-- C8 amended: the logging path performs no request validation of its
own — a request missing source IP, destination IP or protocol fails
only at the persistence step and is reported as a LogError with the
store unchanged, while missing ports or packet size and a confidence
outside [0,1] are accepted and ingested normally. -/
theorem C8_amended :
    (∀ (req : LogRequest) (u : Nat) (now : Int) (orc : StoreOracle) (st : Store),
      (req.src_ip = none ∨ req.dst_ip = none ∨ req.protocol = none) →
      logHandler req u now orc st = (ApiResponse.err ("LogError"), st))
    ∧ (∀ (req : LogRequest) (u : Nat) (now : Int) (st : Store)
        (sip dip proto : String),
        req.src_ip = some sip → req.dst_ip = some dip →
        req.protocol = some proto →
        validTrafficState (trafficStateOf req.state req.is_attack) = true →
        (∀ b ∈ st.blockedIPs, ¬b.ipAddress = sip) →
        ∃ flag, (logHandler req u now StoreOracle.allOk st).1 = ApiResponse.ok flag) := by
  constructor
  · intro req u now orc st h
    rcases hs : req.src_ip with _ | sip
      <;> rcases hd : req.dst_ip with _ | dip
      <;> rcases hp : req.protocol with _ | proto
      <;> simp only [logHandler, hs, hd, hp]
    rcases h with h | h | h
    · rw [hs] at h
      cases h
    · rw [hd] at h
      cases h
    · rw [hp] at h
      cases h
  · intro req u now st sip dip proto hs hd hp hvs hnorow
    rw [logHandler_valid_unfold req u now StoreOracle.allOk st sip dip proto hs hd hp hvs rfl]
    rcases Bool.eq_false_or_eq_true
        (req.is_attack && confGe req.confidence (mkRat 1 2)) with hcond | hcond
    · rcases Bool.eq_false_or_eq_true (confGe req.confidence (mkRat 7 10)) with h7 | h7
      · rw [alertStep_block_pos req sip st.trafficLogs.length u now StoreOracle.allOk
          _ _ _ hcond rfl h7]
        rw [show StoreOracle.allOk.blockOk = true from rfl]
        cases hf : st.blockedIPs.find?
            (fun b => b.ipAddress == sip && b.unblockedAt.isNone) with
        | some b =>
          rw [blockStep_found sip req.predicted_class u now _ _ _ _ b hf]
          exact ⟨true, rfl⟩
        | none =>
          have hall : st.blockedIPs.all (fun b => !(b.ipAddress == sip)) = true := by
            rw [List.all_eq_true]
            intro b hb
            simp [hnorow b hb]
          rw [blockStep_none_create sip req.predicted_class u now _ _ _ hf hall]
          exact ⟨true, rfl⟩
      · rw [alertStep_block_neg7 req sip st.trafficLogs.length u now StoreOracle.allOk
          _ _ _ hcond rfl h7]
        exact ⟨true, rfl⟩
    · rw [alertStep_neg req sip st.trafficLogs.length u now StoreOracle.allOk _ hcond]
      exact ⟨false, rfl⟩

/-- Witness for the amended C8: the missing-source-IP request fails as a
LogError with an unchanged store, and the 1.5-confidence request is
accepted. -/
theorem C8_witness :
    logHandler reqMissing 1 0 StoreOracle.allOk Store.empty
      = (ApiResponse.err ("LogError"), Store.empty)
    ∧ ∃ flag, (logHandler reqOutOfRange 1 0 StoreOracle.allOk Store.empty).1
        = ApiResponse.ok flag :=
  ⟨C8_amended.1 reqMissing 1 0 StoreOracle.allOk Store.empty (Or.inl rfl),
    C8_amended.2 reqOutOfRange 1 0 Store.empty ("192.168.1.100") ("10.0.0.5") ("TCP")
      rfl rfl rfl (by decide) (by decide)⟩

/-- C9: if a logging-path ingestion reports an error although the
TrafficSample write itself could not fail (required columns present,
state inside its enum, store up for that write), the failure happened in
the alert/block step: the persisted sample remains in the store — it is
not rolled back — and the error reported to the caller is the LogError
kind. -/
theorem C9_sample_not_rolled_back (req : LogRequest) (u : Nat) (now : Int)
    (orc : StoreOracle) (st : Store) (sip dip proto : String)
    (hs : req.src_ip = some sip) (hd : req.dst_ip = some dip)
    (hp : req.protocol = some proto)
    (hvs : validTrafficState (trafficStateOf req.state req.is_attack) = true)
    (htr : orc.trafficOk = true) (e : String)
    (herr : (logHandler req u now orc st).1 = ApiResponse.err e) :
    e = ("LogError")
    ∧ (logHandler req u now orc st).2.trafficLogs
        = st.trafficLogs ++ [mkSample req sip dip proto st.trafficLogs.length] := by
  refine ⟨logHandler_err_kind req u now orc st e herr, ?_⟩
  rw [logHandler_valid_unfold req u now orc st sip dip proto hs hd hp hvs htr]
  rw [alertStep_trafficLogs]

/-- The store is up for the sample write but down for the alert write. -/
def orcNoAlert : StoreOracle := ⟨true, false, true⟩

/-- Witness for C9: the 0.95-confidence attack with the alert write
failing — the request errors, the sample stays persisted. -/
theorem C9_witness :
    ("LogError" : String) = ("LogError")
    ∧ (logHandler reqHigh 1 0 orcNoAlert Store.empty).2.trafficLogs
        = Store.empty.trafficLogs
          ++ [mkSample reqHigh ("192.168.1.100") ("10.0.0.5") ("TCP")
              Store.empty.trafficLogs.length] :=
  C9_sample_not_rolled_back reqHigh 1 0 orcNoAlert Store.empty
    ("192.168.1.100") ("10.0.0.5") ("TCP") rfl rfl rfl (by decide) rfl
    ("LogError") (by decide)

/-- C10: the blocked_ips store enforces global uniqueness of ipAddress
across all rows — every store reachable through the ingestion endpoints
holds at most one row per IP, active or not — and an auto-block create
for an IP that already owns any row, including one whose unblockedAt is
set and which the active-only pre-check therefore does not see, fails
with a constraint violation (surfacing as LogError) instead of
producing a second row. -/
theorem C10_unique_constraint :
    (∀ st, Reachable st → globallyUniqueIPs st)
    ∧ (∀ (req : LogRequest) (u : Nat) (now : Int) (st : Store)
        (sip dip proto : String) (c : ℚ),
        req.src_ip = some sip → req.dst_ip = some dip →
        req.protocol = some proto →
        validTrafficState (trafficStateOf req.state req.is_attack) = true →
        req.is_attack = true → req.confidence = some c → mkRat 7 10 ≤ c →
        (∀ b ∈ st.blockedIPs, ¬(b.ipAddress = sip ∧ b.unblockedAt = none)) →
        (∃ b ∈ st.blockedIPs, b.ipAddress = sip) →
        (logHandler req u now StoreOracle.allOk st).1 = ApiResponse.err ("LogError")
        ∧ (logHandler req u now StoreOracle.allOk st).2.blockedIPs = st.blockedIPs) := by
  constructor
  · exact reachable_globallyUnique
  · intro req u now st sip dip proto c hs hd hp hvs hatt hc h7 hnoact hrow
    exact logHandler_dup_conflict req u now st sip dip proto c
      hs hd hp hvs hatt hc h7 hnoact hrow

/-- Witness for C10: uniqueness at the empty store, and the
constraint-violation failure on a store holding an unblocked row for the
attacking IP. -/
theorem C10_witness :
    globallyUniqueIPs Store.empty
    ∧ ((logHandler reqHigh 1 0 StoreOracle.allOk stOldBlock).1
        = ApiResponse.err ("LogError")
      ∧ (logHandler reqHigh 1 0 StoreOracle.allOk stOldBlock).2.blockedIPs
          = stOldBlock.blockedIPs) :=
  ⟨C10_unique_constraint.1 Store.empty Reachable.empty,
    C10_unique_constraint.2 reqHigh 1 0 stOldBlock ("192.168.1.100") ("10.0.0.5")
      ("TCP") (mkRat 95 100) rfl rfl rfl (by decide) rfl rfl (by decide)
      (by decide) (by decide)⟩

end IDS
